import Mathlib

/-!
Shallow embedding of `src/main.py` (a small Flask service with four routes,
a Google Secret Manager resolver and an API-key validator), together with
theorems settling the specification claims about it.

Conventions of the embedding:
* Python strings are Lean `String`s (sequences of Unicode code points).
* `os.environ.get` results are `Option String` (`none` = variable unset).
* Python truthiness of an optional string (`if not x`) is `strTruthy`:
  `None` and the empty string are falsy, every other string is truthy.
* The external world (environment variables and the outcome of the remote
  Secret Manager access) is an explicit `World` record threaded through the
  functions; the wall clock `int(time.time())` is an explicit `now : Int`.
* `hashlib.sha256(s.encode()).hexdigest()` is an explicit parameter
  `hash : String → String`; the source fixes it to SHA-256, and theorems
  that need collision-freeness assume `Function.Injective hash`.
* Fallible external steps are `Except Unit _`; the `try/except` blocks of
  the source become total functions mapping the `.error` case to the
  source's `except` result.
-/

namespace GcpCicd

/-- Python truthiness of an optional string: `None` and `""` are falsy
(`if not x:` in the source fires exactly on these). -/
def strTruthy : Option String → Bool
  | none => false
  | some s => !(s == "")

/-- Python `a or b` for two optional strings (as in
`os.environ.get('GCP_PROJECT_ID') or os.environ.get('GOOGLE_CLOUD_PROJECT')`,
line 38 of `main.py`): yields `a` when `a` is truthy, otherwise `b`. -/
def pyOrElse (a b : Option String) : Option String :=
  if strTruthy a then a else b

/-- The environment variables the service reads (`os.environ`). -/
structure Env where
  GCP_PROJECT_ID : Option String
  GOOGLE_CLOUD_PROJECT : Option String
  API_KEY : Option String
  ENVIRONMENT : Option String
  PYTHON_VERSION : Option String
  HOSTNAME : Option String
deriving DecidableEq, Repr

/-- The external world a request executes against: the environment variables
and, for each Secret Manager resource name, the combined outcome of
`client.access_secret_version(...)` and the UTF-8 decode of its payload
(lines 44-48 of `main.py`). `.error ()` stands for any raised failure of
client construction, the remote call (network, permission, not-found) or the
decode; `.ok v` for a successfully decoded secret value `v`. -/
structure World where
  env : Env
  remote : String → Except Unit String

/-- The composite resource path `projects/.../secrets/.../versions/latest`
built at line 45 of `main.py`. -/
def secretResourceName (project_id secret_name : String) : String :=
  "projects/" ++ project_id ++ "/secrets/" ++ secret_name ++ "/versions/latest"

/-- The project id `get_secret` ends up using: the caller's argument if
truthy, otherwise `GCP_PROJECT_ID or GOOGLE_CLOUD_PROJECT` (lines 37-38 of
`main.py`). -/
def effectiveProjectId (env : Env) (project_id : Option String) : Option String :=
  if strTruthy project_id then project_id
  else pyOrElse env.GCP_PROJECT_ID env.GOOGLE_CLOUD_PROJECT

/-- `get_secret(secret_name, project_id=None)` (lines 25-54 of `main.py`):
resolve a project scope, return `None` without a remote call when none is
found, otherwise access the latest secret version and decode it; the whole
body is wrapped in `try/except Exception: return None`, so every failure of
the remote step yields `none`. -/
def get_secret (w : World) (secret_name : String)
    (project_id : Option String := none) : Option String :=
  let pid := effectiveProjectId w.env project_id
  if !(strTruthy pid) then none
  else
    match w.remote (secretResourceName (pid.getD "") secret_name) with
    | .ok v => some v
    | .error _ => none

/-- The expected key `validate_api_key` compares against (lines 67-70 of
`main.py`): the resolved secret `api-key` when truthy (present and
non-empty), otherwise `os.environ.get('API_KEY', 'dev-key-123')`. -/
def expected_key (w : World) : String :=
  let stored := get_secret w "api-key"
  if strTruthy stored then stored.getD ""
  else w.env.API_KEY.getD "dev-key-123"

/-- `validate_api_key(provided_key)` (lines 56-77 of `main.py`): compare the
SHA-256 hex digests of the provided and expected keys. The embedded
`get_secret` is total, so the `except Exception: return False` arm has no
reachable trigger in the model and the function is the digest comparison. -/
def validate_api_key (hash : String → String) (w : World)
    (provided_key : String) : Bool :=
  hash provided_key == hash (expected_key w)

/-- Outcome of `request.get_json()` at line 123 of `main.py` for the request
being handled. `raises` is the case of a body that carries a JSON content
type but is not well-formed JSON: with the default `silent=False`, Flask's
`get_json` calls `on_json_loading_failed`, which raises a `BadRequest`
error; inside the handler it is caught by the `except Exception` arm.
`missing` is the case where `get_json` returns `None` (no JSON body).
`dict entries` is a parsed JSON object, each value rendered through `str()`
(identity on JSON strings). -/
inductive BodyOutcome where
  | raises
  | missing
  | dict (entries : List (String × String))
deriving DecidableEq, Repr

/-- The parts of an incoming `POST /api/secure` request the handler reads:
the `X-API-Key` header (`none` = header absent) and the JSON-body outcome. -/
structure SecureRequest where
  xApiKey : Option String
  body : BodyOutcome
deriving DecidableEq, Repr

/-- Debug sub-object of the config response (lines 160-163 of `main.py`). -/
structure DebugInfo where
  python_version : String
  container_id : String
deriving DecidableEq, Repr

/-- Body of the `GET /api/config` response (lines 147-165 of `main.py`).
`debug = none` models the absence of the `debug` key. -/
structure ConfigBody where
  environment : String
  version : String
  features_secret_manager : Bool
  features_security_scanning : Bool
  features_structured_logging : Bool
  health_check_path : String
  debug : Option DebugInfo
deriving DecidableEq, Repr

/-- JSON bodies the service can emit, one constructor per shape. -/
inductive RespBody where
  | errorMsg (msg : String)
  | secureOk (processed_message : String) (timestamp : Int)
  | homeOk (message version environment : String)
      (security_features : List String)
  | healthOk (status : String) (timestamp : Int) (version : String)
  | configOk (c : ConfigBody)
deriving DecidableEq, Repr

/-- An HTTP response: status code, JSON body, and the response headers
(handlers emit none; the `after_request` hook adds the security set). -/
structure Response where
  status : Nat
  body : RespBody
  headers : List (String × String)
deriving DecidableEq, Repr

/-- `response.headers[k] = v`: overwrite an existing entry for `k` or else
append one. -/
def setHeader (hs : List (String × String)) (k v : String) :
    List (String × String) :=
  if hs.any (fun p => p.1 == k) then
    hs.map (fun p => if p.1 == k then (k, v) else p)
  else hs ++ [(k, v)]

/-- The `after_request` middleware (lines 15-23 of `main.py`): add the five
security headers to the response. -/
def after_request (r : Response) : Response :=
  let h1 := setHeader r.headers "X-Content-Type-Options" "nosniff"
  let h2 := setHeader h1 "X-Frame-Options" "DENY"
  let h3 := setHeader h2 "X-XSS-Protection" "1; mode=block"
  let h4 := setHeader h3 "Strict-Transport-Security"
    "max-age=31536000; includeSubDomains"
  let h5 := setHeader h4 "Content-Security-Policy" "default-src 'self'"
  { r with headers := h5 }

/-- `GET /` handler (lines 79-92 of `main.py`). -/
def home (env : Env) : Response :=
  ⟨200,
   .homeOk "Hello from Secure Cloud Run CI/CD pipeline!" "2.0.0"
     (env.ENVIRONMENT.getD "development")
     ["Secret Manager integration", "Security headers",
      "Input validation", "Structured logging"],
   []⟩

/-- `GET /health` handler (lines 94-101 of `main.py`). -/
def health_check (now : Int) : Response :=
  ⟨200, .healthOk "healthy" now "2.0.0", []⟩

/-- `POST /api/secure` handler (lines 103-139 of `main.py`): check the
header, validate the key, parse the body, truncate the message. The
`except Exception` arm (lines 137-139) catches the `BadRequest` raised by
`get_json` on a malformed body and yields the 500 response. -/
def secure_endpoint (hash : String → String) (w : World) (now : Int)
    (req : SecureRequest) : Response :=
  if !(strTruthy req.xApiKey) then
    ⟨401, .errorMsg "API key required", []⟩
  else if !(validate_api_key hash w (req.xApiKey.getD "")) then
    ⟨403, .errorMsg "Invalid API key", []⟩
  else
    match req.body with
    | .raises => ⟨500, .errorMsg "Internal server error", []⟩
    | .missing => ⟨400, .errorMsg "Invalid request data", []⟩
    | .dict entries =>
      match entries.lookup "message" with
      | none => ⟨400, .errorMsg "Invalid request data", []⟩
      | some m =>
        let message := String.mk (m.data.take 100)
        ⟨200, .secureOk ("Processed: " ++ message) now, []⟩

/-- `GET /api/config` handler (lines 141-165 of `main.py`): the `debug`
sub-object is added exactly when the resolved environment is not
"production". -/
def get_config (env : Env) : Response :=
  let environment := env.ENVIRONMENT.getD "development"
  let debug :=
    if environment != "production" then
      some ⟨env.PYTHON_VERSION.getD "unknown", env.HOSTNAME.getD "unknown"⟩
    else none
  ⟨200, .configOk ⟨environment, "2.0.0", true, true, true, "/health", debug⟩, []⟩

/-- The 404 error handler (lines 167-170 of `main.py`). -/
def not_found : Response :=
  ⟨404, .errorMsg "Endpoint not found", []⟩

/-- A dispatched request: one constructor per route of the app, plus the
unmatched-route case handled by the 404 handler. -/
inductive Route where
  | homeR
  | healthR
  | configR
  | secureR (req : SecureRequest)
  | notFoundR
deriving Repr

/-- Route dispatch: the handler's raw response, before `after_request`. -/
def dispatch (hash : String → String) (w : World) (now : Int) :
    Route → Response
  | .homeR => home w.env
  | .healthR => health_check now
  | .configR => get_config w.env
  | .secureR req => secure_endpoint hash w now req
  | .notFoundR => not_found

/-- The full app pipeline: Flask runs every handler's response (the error
handlers' included) through the `after_request` hook. -/
def app_handle (hash : String → String) (w : World) (now : Int)
    (r : Route) : Response :=
  after_request (dispatch hash w now r)

/-! Concrete worlds used by witnesses and counterexamples. -/

/-- A world where no environment variable is set and every remote secret
access raises: the resolver finds no project id and skips the remote call,
so validation falls back to the development default key. -/
def devWorld : World :=
  ⟨⟨none, none, none, none, none, none⟩, fun _ => .error ()⟩

/-- A world with a project id where every remote secret access succeeds and
decodes to the empty string. -/
def emptySecretWorld : World :=
  ⟨⟨some "p", none, none, none, none, none⟩, fun _ => .ok ""⟩

/-- A world with a project id where every remote secret access succeeds and
decodes to `test-key-123`. -/
def okSecretWorld : World :=
  ⟨⟨some "p", none, none, none, none, none⟩, fun _ => .ok "test-key-123"⟩

/-- A world with a project id where every remote secret access raises. -/
def errSecretWorld : World :=
  ⟨⟨some "p", none, none, none, none, none⟩, fun _ => .error ()⟩

/-! Theorems settling the claims. -/

/-- C9: a `POST /api/secure` request whose `X-API-Key` header is present but
equal to the empty string gets the 401 "API key required" response (the
`if not api_key` check at line 113 of `main.py` treats the empty header like
a missing one), not 403, whatever the body and the expected key are. -/
theorem c9_empty_header_gives_401 (hash : String → String) (w : World)
    (now : Int) (body : BodyOutcome) :
    secure_endpoint hash w now ⟨some "", body⟩ =
      ⟨401, .errorMsg "API key required", []⟩ := by
  rfl

/-- C2: assuming the digest function is collision-free (the idealization of
SHA-256 under which digest equality coincides with string equality),
`validate_api_key` accepts a provided key exactly when it equals the
expected key; in particular it rejects every different non-empty key. -/
theorem c2_validate_iff_equal (hash : String → String)
    (hinj : Function.Injective hash) (w : World) (provided_key : String)
    (hp : provided_key ≠ "") (he : expected_key w ≠ "") :
    validate_api_key hash w provided_key = true ↔
      provided_key = expected_key w := by
  unfold validate_api_key
  rw [beq_iff_eq]
  exact ⟨fun h => hinj h, fun h => by rw [h]⟩

/-- Witness for C2: in the world with nothing configured the expected key is
the development default `dev-key-123`, and supplying exactly that key
validates. -/
theorem c2_validate_iff_equal_witness :
    validate_api_key (fun s => s) devWorld "dev-key-123" = true :=
  (c2_validate_iff_equal (fun s => s) (fun _ _ h => h) devWorld
    "dev-key-123" (by decide) (by decide)).mpr rfl

/-- C10: when the secret store yields the empty string for `api-key`,
`validate_api_key`'s truthiness test (`if not stored_key`, line 68 of
`main.py`) treats it as absence: the expected key is the `API_KEY`
environment variable or the development default, never the empty secret;
and with `API_KEY` unset, an empty supplied key is rejected (under a
collision-free digest), so an empty key cannot validate via the store. -/
theorem c10_empty_secret_is_absence (w : World)
    (h : get_secret w "api-key" = some "") :
    expected_key w = w.env.API_KEY.getD "dev-key-123"
    ∧ ∀ hash : String → String, Function.Injective hash →
        w.env.API_KEY = none → validate_api_key hash w "" = false := by
  have he : expected_key w = w.env.API_KEY.getD "dev-key-123" := by
    unfold expected_key
    rw [h]
    rfl
  refine ⟨he, fun hash hinj hA => ?_⟩
  unfold validate_api_key
  rw [he, hA]
  exact beq_eq_false_iff_ne.mpr (hinj.ne (by decide))

/-- Witness for C10: in a world whose secret store holds the empty string
(and with `API_KEY` unset), the expected key is the development default and
the empty supplied key is rejected. -/
theorem c10_empty_secret_is_absence_witness :
    get_secret emptySecretWorld "api-key" = some ""
    ∧ expected_key emptySecretWorld = "dev-key-123"
    ∧ validate_api_key (fun s => s) emptySecretWorld "" = false :=
  ⟨rfl,
   (c10_empty_secret_is_absence emptySecretWorld rfl).1,
   (c10_empty_secret_is_absence emptySecretWorld rfl).2
     (fun s => s) (fun _ _ h => h) rfl⟩

/-- C7: the `/api/config` response body always carries the environment,
version, three feature flags and health-check path, and carries the `debug`
sub-object exactly when the resolved environment differs from
"production". -/
theorem c7_config_debug_iff_not_production (env : Env) :
    ∃ c : ConfigBody, (get_config env).body = .configOk c
      ∧ (c.debug.isSome ↔ c.environment ≠ "production")
      ∧ c.environment = env.ENVIRONMENT.getD "development"
      ∧ c.version = "2.0.0"
      ∧ c.features_secret_manager = true
      ∧ c.features_security_scanning = true
      ∧ c.features_structured_logging = true
      ∧ c.health_check_path = "/health" := by
  refine ⟨_, rfl, ?_, rfl, rfl, rfl, rfl, rfl, rfl⟩
  by_cases h : env.ENVIRONMENT.getD "development" = "production" <;>
    simp [h]

/-- C4: `get_secret` is total on every world and input — the `try/except`
wrapping its whole body means no failure escapes to the caller — and its
result is characterized by: absence whenever no truthy project scope is
found (no remote call is made), the decoded value when the single remote
access succeeds, and absence when that single access raises for any reason
(network, permission, not-found, decode). There is no retry: the result is
a function of one remote outcome. -/
theorem c4_get_secret_total_characterization (w : World) (n : String)
    (pid : Option String) :
    (strTruthy (effectiveProjectId w.env pid) = false →
      get_secret w n pid = none)
    ∧ (∀ p : String, effectiveProjectId w.env pid = some p → p ≠ "" →
        (∀ v, w.remote (secretResourceName p n) = .ok v →
          get_secret w n pid = some v)
        ∧ (w.remote (secretResourceName p n) = .error () →
          get_secret w n pid = none)) := by
  constructor
  · intro h
    simp [get_secret, h]
  · intro p hp hne
    constructor
    · intro v hv
      simp [get_secret, hp, strTruthy, hne, hv]
    · intro hv
      simp [get_secret, hp, strTruthy, hne, hv]

/-- Witness for C4: with no project scope the resolver returns absence
without a remote call; with a scope it returns the decoded secret when the
remote access succeeds and absence when it raises. -/
theorem c4_get_secret_total_characterization_witness :
    get_secret devWorld "api-key" = none
    ∧ get_secret okSecretWorld "api-key" = some "test-key-123"
    ∧ get_secret errSecretWorld "api-key" = none :=
  ⟨(c4_get_secret_total_characterization devWorld "api-key" none).1 rfl,
   ((c4_get_secret_total_characterization okSecretWorld "api-key" none).2
     "p" rfl (by decide)).1 "test-key-123" rfl,
   ((c4_get_secret_total_characterization errSecretWorld "api-key" none).2
     "p" rfl (by decide)).2 rfl⟩

/-- Counterexample to C1 as stated, on two inputs. First, a request whose
`X-API-Key` header is present but empty: the claim's order says a present
but invalid key gets 403, while the handler's `if not api_key` test treats
the empty header as missing and answers 401. Second, a request with a valid
key and a body that is not well-formed JSON: the claim says 400, but
`request.get_json()` raises on a malformed body and the handler's
`except Exception` arm turns that into the 500 response. -/
theorem c1_counterexample :
    secure_endpoint (fun s => s) devWorld 0
        ⟨some "", .dict [("message", "hi")]⟩ =
      ⟨401, .errorMsg "API key required", []⟩
    ∧ (401 : Nat) ≠ 403
    ∧ secure_endpoint (fun s => s) devWorld 0 ⟨some "dev-key-123", .raises⟩ =
      ⟨500, .errorMsg "Internal server error", []⟩
    ∧ (500 : Nat) ≠ 400 :=
  ⟨rfl, by decide, rfl, by decide⟩

/-- The response dictated by the amended claim C1, written from its wording:
absent or empty header → 401 API key required; otherwise invalid key → 403
Invalid API key; otherwise malformed JSON body (the parse raises, the raise
is caught) → 500 Internal server error; missing body or body without a
`message` field → 400 Invalid request data; otherwise → 200 success with
the processed message and timestamp. -/
def secure_response_spec (hash : String → String) (w : World) (now : Int)
    (req : SecureRequest) : Response :=
  if req.xApiKey = none ∨ req.xApiKey = some "" then
    ⟨401, .errorMsg "API key required", []⟩
  else if validate_api_key hash w (req.xApiKey.getD "") = false then
    ⟨403, .errorMsg "Invalid API key", []⟩
  else
    match req.body with
    | .raises => ⟨500, .errorMsg "Internal server error", []⟩
    | .missing => ⟨400, .errorMsg "Invalid request data", []⟩
    | .dict entries =>
      match entries.lookup "message" with
      | none => ⟨400, .errorMsg "Invalid request data", []⟩
      | some m =>
        ⟨200, .secureOk ("Processed: " ++ String.mk (m.data.take 100)) now, []⟩

/-- C1 (amended): on every request the handler's checks apply in the
claimed order and produce exactly the amended claim's responses: 401 for an
absent or empty header before anything else, 403 for an invalid key before
the body is read, 500 for a malformed body whose parse raises, 400 for a
missing body or one without a `message` field, 200 with the processed
message otherwise. -/
theorem c1_secure_dispatch_amended (hash : String → String) (w : World)
    (now : Int) (req : SecureRequest) :
    secure_endpoint hash w now req = secure_response_spec hash w now req := by
  obtain ⟨key, body⟩ := req
  unfold secure_endpoint secure_response_spec
  match key with
  | none => rfl
  | some k =>
    by_cases hk : k = ""
    · subst hk
      rfl
    · simp only [strTruthy, Option.some.injEq, hk, or_false, if_neg,
        Bool.not_eq_true']
      have : (k == "") = false := by simpa using hk
      rw [this]
      simp only [Bool.not_false, if_true]
      cases hv : validate_api_key hash w ((some k).getD "") <;> rfl

/-- The expected-key chain exactly as claim C6 words it (claim-side
definition): the resolver's value whenever it is present, otherwise the
`API_KEY` environment variable, otherwise `dev-key-123`. -/
def expected_key_claimed (w : World) : String :=
  match get_secret w "api-key" with
  | some s => s
  | none => w.env.API_KEY.getD "dev-key-123"

/-- A world for the C6 counterexample: the store resolves `api-key` to the
empty string and the `API_KEY` environment variable is set to `env-key`. -/
def c6World : World :=
  ⟨⟨some "p", none, some "env-key", none, none, none⟩, fun _ => .ok ""⟩

/-- Counterexample to C6 as stated: when the resolver yields the empty
string — a present value — the claimed chain makes it the expected key, but
the code's `if not stored_key` test (line 68 of `main.py`) skips it and
falls back to the `API_KEY` environment variable. -/
theorem c6_counterexample :
    get_secret c6World "api-key" = some ""
    ∧ expected_key_claimed c6World = ""
    ∧ expected_key c6World = "env-key"
    ∧ ("" : String) ≠ "env-key" :=
  ⟨rfl, rfl, rfl, by decide⟩

/-- The expected-key chain per the amended claim C6: the resolver's value
when present and non-empty, otherwise the `API_KEY` environment variable,
otherwise `dev-key-123`. -/
def expected_key_spec (w : World) : String :=
  match get_secret w "api-key" with
  | some s => if s = "" then w.env.API_KEY.getD "dev-key-123" else s
  | none => w.env.API_KEY.getD "dev-key-123"

/-- C6 (amended): on every world — the worlds where the remote secret
access raises included, since the embedded resolver absorbs every such
failure into absence rather than propagating it — the expected key equals
the amended three-step chain, and `validate_api_key` is exactly the digest
comparison against that chain's result. -/
theorem c6_expected_key_chain_amended (w : World) :
    expected_key w = expected_key_spec w
    ∧ ∀ (hash : String → String) (k : String),
        validate_api_key hash w k = (hash k == hash (expected_key_spec w)) := by
  have h : expected_key w = expected_key_spec w := by
    unfold expected_key expected_key_spec
    match hs : get_secret w "api-key" with
    | none => rfl
    | some s =>
      by_cases he : s = ""
      · subst he
        rfl
      · have : (s == "") = false := by simpa using he
        simp [strTruthy, this, he]
  exact ⟨h, fun hash k => by rw [validate_api_key, h]⟩

/-- C5: an accepted message is echoed as `Processed: ` followed by its
first 100 code points (`str(data['message'])[:100]`, line 128 of
`main.py`): the truncated part has length exactly 100 when the message is
longer than 100 code points, and is the unmodified message otherwise. -/
theorem c5_message_truncation (hash : String → String) (w : World)
    (now : Int) (key : Option String) (entries : List (String × String))
    (m : String)
    (hk : strTruthy key = true)
    (hv : validate_api_key hash w (key.getD "") = true)
    (hm : entries.lookup "message" = some m) :
    secure_endpoint hash w now ⟨key, .dict entries⟩ =
      ⟨200, .secureOk ("Processed: " ++ String.mk (m.data.take 100)) now, []⟩
    ∧ (100 < m.length → (String.mk (m.data.take 100)).length = 100)
    ∧ (m.length ≤ 100 → String.mk (m.data.take 100) = m) := by
  refine ⟨?_, ?_, ?_⟩
  · simp [secure_endpoint, hk, hv, hm]
  · intro h
    have hlen : m.length = m.data.length := rfl
    simp only [String.length, List.length_take]
    omega
  · intro h
    rw [List.take_of_length_le h]

/-- A 150-code-point message, used to exercise the truncation. -/
def longMsg : String := String.mk (List.replicate 150 'x')

set_option maxRecDepth 8000 in
/-- Witness for C5: a valid request carrying a 150-character message gets
the 200 response whose echoed part is truncated to exactly 100
characters. -/
theorem c5_message_truncation_witness :
    secure_endpoint (fun s => s) devWorld 0
        ⟨some "dev-key-123", .dict [("message", longMsg)]⟩ =
      ⟨200, .secureOk ("Processed: " ++ String.mk (longMsg.data.take 100)) 0,
       []⟩
    ∧ (String.mk (longMsg.data.take 100)).length = 100 :=
  ⟨(c5_message_truncation (fun s => s) devWorld 0 (some "dev-key-123")
      [("message", longMsg)] longMsg rfl (by decide) rfl).1,
   (c5_message_truncation (fun s => s) devWorld 0 (some "dev-key-123")
      [("message", longMsg)] longMsg rfl (by decide) rfl).2.1 (by decide)⟩

/-- C8: every response of the app — all four routes, the 404 handler, and
every 4xx/5xx outcome of the secure endpoint included — leaves Flask with
the `after_request` hook applied, so its header list is exactly the five
security headers with their fixed values. -/
theorem c8_security_headers_on_every_response (hash : String → String)
    (w : World) (now : Int) (r : Route) :
    (app_handle hash w now r).headers =
      [("X-Content-Type-Options", "nosniff"),
       ("X-Frame-Options", "DENY"),
       ("X-XSS-Protection", "1; mode=block"),
       ("Strict-Transport-Security", "max-age=31536000; includeSubDomains"),
       ("Content-Security-Policy", "default-src 'self'")] := by
  have h0 : (dispatch hash w now r).headers = [] := by
    cases r with
    | homeR => rfl
    | healthR => rfl
    | configR => rfl
    | notFoundR => rfl
    | secureR req =>
      obtain ⟨key, body⟩ := req
      show (secure_endpoint hash w now ⟨key, body⟩).headers = []
      unfold secure_endpoint
      split
      · rfl
      · split
        · rfl
        · cases body with
          | raises => rfl
          | missing => rfl
          | dict entries =>
            rcases hl : List.lookup "message" entries with _ | m <;>
              simp [hl]
  show (after_request (dispatch hash w now r)).headers = _
  simp only [after_request]
  rw [h0]
  rfl

end GcpCicd
